import Mathlib

/-!
Verification of the two agent control structures of the SpoonOS crypto-agent
repository: the ReAct reasoning/acting loop (`src/agents/react_agent.py`) and
the fixed-stage analysis workflow (`src/agents/graph_agent.py`), together with
the notification dispatcher (`src/tools/notification_tools.py`).

The embedding is shallow: Python dictionaries become association lists,
numbers become rationals, tool and LLM calls become explicit function
parameters returning `Except` (an exception becomes `Except.error`).
-/

namespace Spoon

/-! ## JSON values

The ReAct loop decodes the text after an `Action Input:` marker with
Python's `json.loads`.  `Json` is the value domain; a Python dict is an
insertion-ordered association list. -/

inductive Json where
  | null
  | bool (b : Bool)
  | num (n : Int)
  | str (s : String)
  | arr (xs : List Json)
  | obj (kvs : List (String × Json))
deriving Repr

/-- Python truthiness of a JSON value: `None`, `False`, `0`, `""`, `[]` and
`{}` are falsy, everything else truthy.  This is the test the loop applies
in `if action and action_input:` (react_agent.py line 259). -/
def Json.truthy : Json → Bool
  | .null => false
  | .bool b => b
  | .num n => n != 0
  | .str s => !s.isEmpty
  | .arr xs => !xs.isEmpty
  | .obj kvs => !kvs.isEmpty

/-- Python truthiness of an optional string (`None` and `""` are falsy). -/
def optTruthyStr : Option String → Bool
  | none => false
  | some s => !s.isEmpty

/-- Python truthiness of an optional JSON value. -/
def optTruthyJson : Option Json → Bool
  | none => false
  | some j => j.truthy

/-! ### A JSON decoder

Modelled from the spec: the stdlib decoder `json.loads` used at
react_agent.py line 192 is not part of this repository; it is modelled here
for the JSON subset the agent exchanges — `null`, `true`, `false`, integer
numerals, plain strings (no escape sequences), arrays and objects.  Inputs
outside this subset decode to `none`, which the caller turns into the
`{"query": raw-text}` fallback, exactly as a `JSONDecodeError` does. -/

/-- JSON insignificant whitespace (space, tab, newline, carriage return). -/
def skipWs : List Char → List Char
  | c :: cs =>
    if c = ' ' ∨ c = '\t' ∨ c = '\n' ∨ c = '\r' then skipWs cs else c :: cs
  | [] => []

/-- Scan a quoted string body up to the closing quote (no escapes). -/
def scanStr : List Char → Option (String × List Char)
  | [] => none
  | c :: cs =>
    if c = '"' then some ("", cs)
    else match scanStr cs with
      | some (s, rest) => some (String.singleton c ++ s, rest)
      | none => none

/-- Decimal digits at the front of the input. -/
def scanDigits : List Char → (List Char × List Char)
  | [] => ([], [])
  | c :: cs =>
    if c.isDigit then
      let (ds, rest) := scanDigits cs
      (c :: ds, rest)
    else ([], c :: cs)

/-- Numeric value of a digit list. -/
def digitsVal (ds : List Char) : Nat :=
  ds.foldl (fun acc c => 10 * acc + (c.toNat - '0'.toNat)) 0

/-- Scan an integer numeral (optional minus sign, then digits). -/
def scanNum : List Char → Option (Json × List Char)
  | '-' :: cs =>
    let (ds, rest) := scanDigits cs
    if ds.isEmpty then none else some (.num (-(digitsVal ds : Int)), rest)
  | cs =>
    let (ds, rest) := scanDigits cs
    if ds.isEmpty then none else some (.num (digitsVal ds : Int), rest)

mutual

/-- Parse one JSON value (fuel-bounded recursive descent). -/
def parseV : Nat → List Char → Option (Json × List Char)
  | 0, _ => none
  | fuel + 1, cs =>
    match skipWs cs with
    | 'n' :: 'u' :: 'l' :: 'l' :: rest => some (.null, rest)
    | 't' :: 'r' :: 'u' :: 'e' :: rest => some (.bool true, rest)
    | 'f' :: 'a' :: 'l' :: 's' :: 'e' :: rest => some (.bool false, rest)
    | '"' :: rest =>
      match scanStr rest with
      | some (s, rest2) => some (.str s, rest2)
      | none => none
    | '[' :: rest =>
      match skipWs rest with
      | ']' :: rest2 => some (.arr [], rest2)
      | rest2 =>
        match parseItems fuel rest2 with
        | some (xs, rest3) => some (.arr xs, rest3)
        | none => none
    | '\x7b' :: rest =>
      match skipWs rest with
      | '\x7d' :: rest2 => some (.obj [], rest2)
      | rest2 =>
        match parseMembers fuel rest2 with
        | some (kvs, rest3) => some (.obj kvs, rest3)
        | none => none
    | cs2 => scanNum cs2

/-- Parse a nonempty comma-separated list of array items. -/
def parseItems : Nat → List Char → Option (List Json × List Char)
  | 0, _ => none
  | fuel + 1, cs =>
    match parseV fuel cs with
    | some (x, rest) =>
      match skipWs rest with
      | ',' :: rest2 =>
        match parseItems fuel rest2 with
        | some (xs, rest3) => some (x :: xs, rest3)
        | none => none
      | ']' :: rest2 => some ([x], rest2)
      | _ => none
    | none => none

/-- Parse a nonempty comma-separated list of object members. -/
def parseMembers : Nat → List Char → Option (List (String × Json) × List Char)
  | 0, _ => none
  | fuel + 1, cs =>
    match skipWs cs with
    | '"' :: rest =>
      match scanStr rest with
      | some (k, rest2) =>
        match skipWs rest2 with
        | ':' :: rest3 =>
          match parseV fuel rest3 with
          | some (v, rest4) =>
            match skipWs rest4 with
            | ',' :: rest5 =>
              match parseMembers fuel rest5 with
              | some (kvs, rest6) => some ((k, v) :: kvs, rest6)
              | none => none
            | '\x7d' :: rest5 => some ([(k, v)], rest5)
            | _ => none
          | none => none
        | _ => none
      | none => none
    | _ => none

end

/-- `json.loads`: decode a whole string, rejecting trailing garbage. -/
def jsonLoads (s : String) : Option Json :=
  match parseV (2 * s.length + 2) s.data with
  | some (j, rest) => if (skipWs rest).isEmpty then some j else none
  | none => none

/-! ## String primitives

The agent manipulates LLM text with Python's `str.split`, `str.strip`,
`str.startswith`, `str.replace` and `"sep".join`.  They are embedded here
by structural recursion over the character list so that every theorem and
witness below evaluates inside the kernel. -/

/-- `sep.join(parts)`. -/
def joinWith (sep : String) : List String → String
  | [] => ""
  | x :: xs => xs.foldl (fun acc y => acc ++ sep ++ y) x

/-- Does the second list start with the first one? -/
def leadsWith : List Char → List Char → Bool
  | [], _ => true
  | _ :: _, [] => false
  | p :: ps, c :: cs => p == c && leadsWith ps cs

/-- Worker for `pySplit`: fuel-bounded left-to-right scan cutting the input
at every non-overlapping occurrence of the (nonempty) separator. -/
def splitOnAuxL (sep : List Char) : Nat → List Char → List Char → List (List Char)
  | 0, rest, acc => [acc.reverse ++ rest]
  | _ + 1, [], acc => [acc.reverse]
  | fuel + 1, c :: cs, acc =>
    if leadsWith sep (c :: cs) then
      acc.reverse :: splitOnAuxL sep fuel ((c :: cs).drop sep.length) []
    else
      splitOnAuxL sep fuel cs (c :: acc)

/-- Python `s.split(sep)` for a nonempty separator: the pieces between
consecutive non-overlapping occurrences of `sep`, scanned left to right. -/
def pySplit (s sep : String) : List String :=
  if sep.data.isEmpty then [s]
  else (splitOnAuxL sep.data (s.data.length + 1) s.data []).map (fun cs => String.mk cs)

/-- Python whitespace stripped by `str.strip()`. -/
def isPyWs (c : Char) : Bool :=
  c == ' ' || c == '\t' || c == '\n' || c == '\r' || c == '\x0b' || c == '\x0c'

/-- Python `s.strip()`: drop whitespace from both ends. -/
def pyStrip (s : String) : String :=
  String.mk (((s.data.dropWhile isPyWs).reverse.dropWhile isPyWs).reverse)

/-- Python `s.replace(old, new)` for a nonempty `old`: replace every
non-overlapping occurrence. -/
def pyReplace (s old new : String) : String :=
  joinWith new (pySplit s old)

/-- Python `s.startswith(pre)`. -/
def pyStartsWith (s pre : String) : Bool :=
  leadsWith pre.data s.data

/-! ## Serialization helpers used by the ReAct prompt -/

mutual

/-- `json.dumps` restricted to the same subset as the decoder (no escape
processing in strings).  Used when rendering history lines
(react_agent.py line 145). -/
def jsonDumps : Json → String
  | .null => "null"
  | .bool true => "true"
  | .bool false => "false"
  | .num n => toString n
  | .str s => "\"" ++ s ++ "\""
  | .arr xs => "[" ++ joinWith ", " (jsonDumpsItems xs) ++ "]"
  | .obj kvs => "\x7b" ++ joinWith ", " (jsonDumpsMembers kvs) ++ "\x7d"

/-- Serialize each array item. -/
def jsonDumpsItems : List Json → List String
  | [] => []
  | x :: xs => jsonDumps x :: jsonDumpsItems xs

/-- Serialize each object member as a quoted key, a colon and the value. -/
def jsonDumpsMembers : List (String × Json) → List String
  | [] => []
  | (k, v) :: kvs => ("\"" ++ k ++ "\": " ++ jsonDumps v) :: jsonDumpsMembers kvs

end

/-- `json.dumps` of an `Optional` value (`None` serializes as `null`). -/
def jsonDumpsOpt : Option Json → String
  | none => "null"
  | some j => jsonDumps j

/-- Python substring membership `pat in s` (for nonempty `pat`):
splitting on the pattern yields more than one part iff it occurs. -/
def hasSubstr (s pat : String) : Bool :=
  (pySplit s pat).length != 1

/-! ## The ReAct agent (react_agent.py) -/

/-- One step of the ReAct loop (`AgentStep` dataclass). -/
structure AgentStep where
  thought : String
  action : Option String
  actionInput : Option Json
  observation : Option String

/-- A registered tool: its prompt description and its callable.  The
callable stands for `tool.run(**action_input)` followed by `str(result)`:
`Except.ok` carries the serialized result, `Except.error` the text of a
raised exception. -/
structure ToolSpec where
  description : String
  call : Json → Except String String

/-- The agent's tool registry: an insertion-ordered map from tool name to
tool, as built by `_init_tools`. -/
def Tools := List (String × ToolSpec)

/-- An ASCII single-quote character, used in error message literals. -/
def sq : String := String.singleton (Char.ofNat 39)

/-- `_parse_action`: scan the response line by line; an `Action:` line sets
the action name (text after the first marker, trimmed), an `Action Input:`
line sets the input — JSON-decoded, or wrapped as `{"query": raw}` when
decoding fails.  Later matching lines overwrite earlier ones. -/
def parseAction (text : String) : Option String × Option Json :=
  let lines := pySplit (pyStrip text) "\n"
  lines.foldl
    (fun acc line =>
      if pyStartsWith line "Action:" then
        (some (pyStrip ((pySplit line "Action:").getD 1 "")), acc.2)
      else if pyStartsWith line "Action Input:" then
        let inputText := pyStrip ((pySplit line "Action Input:").getD 1 "")
        match jsonLoads inputText with
        | some j => (acc.1, some j)
        | none => (acc.1, some (.obj [("query", .str inputText)]))
      else acc)
    (none, none)

/-- `_execute_tool`: exact-name lookup in the registry; unknown names give
a "not found" observation, a raising tool gives an "Error executing"
observation, otherwise the serialized result is returned. -/
def executeTool (tools : Tools) (action : String) (input : Json) : String :=
  match tools.find? (fun p => p.1 = action) with
  | none => "Error: Tool " ++ sq ++ action ++ sq ++ " not found."
  | some (_, tool) =>
    match tool.call input with
    | .ok r => r
    | .error e => "Error executing " ++ action ++ ": " ++ e

/-- `_format_tools`: one "- name: description" line per registered tool. -/
def formatTools (tools : Tools) : String :=
  joinWith "\n" (tools.map (fun p => "- " ++ p.1 ++ ": " ++ p.2.description))

/-- `_format_history`: render each step as Thought/Action/Action
Input/Observation lines; the action and observation lines are emitted only
when the corresponding field is truthy. -/
def formatHistory (history : List AgentStep) : String :=
  if history.isEmpty then ""
  else
    joinWith "\n" (history.foldr
      (fun step acc =>
        ("Thought: " ++ step.thought) ::
        (if optTruthyStr step.action then
          ["Action: " ++ step.action.getD "",
           "Action Input: " ++ jsonDumpsOpt step.actionInput]
         else []) ++
        (if optTruthyStr step.observation then
          ["Observation: " ++ step.observation.getD ""]
         else []) ++ acc)
      [])

/-- `REACT_PROMPT_TEMPLATE.format(...)`: the prompt sent to the LLM on each
iteration. -/
def buildPrompt (tools : Tools) (question : String) (history : List AgentStep) : String :=
  "You are a cryptocurrency analysis assistant with access to various tools.\n\n" ++
  "Available Tools:\n" ++ formatTools tools ++ "\n\n" ++
  "Use the following format:\n\n" ++
  "Thought: Think about what information you need\n" ++
  "Action: the action to take, should be one of [" ++
    joinWith ", " (tools.map (fun p => p.1)) ++ "]\n" ++
  "Action Input: the input to the action (JSON format)\n" ++
  "Observation: the result of the action\n" ++
  "... (this Thought/Action/Action Input/Observation can repeat N times)\n" ++
  "Thought: I now know the final answer\n" ++
  "Final Answer: the final answer to the original question\n\n" ++
  "Begin!\n\n" ++
  "Question: " ++ question ++ "\n" ++ formatHistory history ++ "\nThought:"

/-- The loop body for one non-terminal response (react_agent.py lines
250-262): extract the thought (text before the first `Action:` marker with
every `Thought:` marker removed, trimmed), parse action and input, and run
the tool only when both are truthy. -/
def makeStep (tools : Tools) (response : String) : AgentStep :=
  let thought := pyStrip (pyReplace ((pySplit response "Action:").getD 0 "") "Thought:" "")
  let pa := parseAction response
  let observation :=
    match pa.1, pa.2 with
    | some a, some inp =>
      if !a.isEmpty && inp.truthy then some (executeTool tools a inp) else none
    | _, _ => none
  { thought := thought, action := pa.1, actionInput := pa.2, observation := observation }

/-- Outcome of `run`: the returned string, the final `self.history`, and
how many times the LLM was invoked. -/
structure RunResult where
  answer : String
  history : List AgentStep
  llmCalls : Nat

/-- The body of `run`'s `for` loop.  The LLM is a parameter taking the
invocation index (a scripted LLM reads its script by this index) and the
prompt; `fuel` is the number of iterations left. -/
def runFrom (tools : Tools) (llm : Nat → String → String) (question : String) :
    Nat → Nat → List AgentStep → RunResult
  | 0, calls, history => ⟨"Max iterations reached.", history, calls⟩
  | fuel + 1, calls, history =>
    let prompt := buildPrompt tools question history
    let response := llm calls prompt
    if hasSubstr response "Final Answer:" then
      ⟨pyStrip ((pySplit response "Final Answer:").getD 1 ""), history, calls + 1⟩
    else
      runFrom tools llm question fuel (calls + 1) (history ++ [makeStep tools response])

/-- `CryptoReActAgent.run`: clear the history, then iterate up to
`maxIterations` times. -/
def ReAct.run (tools : Tools) (maxIterations : Nat) (llm : Nat → String → String)
    (question : String) : RunResult :=
  runFrom tools llm question maxIterations 0 []

/-! ## Workflow values (graph_agent.py)

The workflow state threads Python dictionaries whose values are numbers,
strings or lists; `Val` is that value domain (numbers as rationals —
threshold comparisons at 5, 0, -5 and 1e9 are exact there). -/

inductive Val where
  | num (q : ℚ)
  | str (s : String)
  | vlist (xs : List Val)

/-- Ordered dictionary lookup (first matching key wins; the workflow never
repeats a key). -/
def alookup : List (String × Val) → String → Option Val
  | [], _ => none
  | (k, v) :: kvs, key => if k = key then some v else alookup kvs key

/-- `m.get(k, d)` followed by use in a numeric comparison: a missing key
gives the (numeric) default, a numeric value gives that number, and a
non-numeric value gives `none` — standing for the `TypeError` a Python
comparison between a string and a number raises, which the node catches. -/
def getNumD (m : List (String × Val)) (k : String) (d : ℚ) : Option ℚ :=
  match alookup m k with
  | none => some d
  | some (.num q) => some q
  | some _ => none

mutual

/-- Python `repr` of a value, as used when a dictionary is interpolated
into the decision prompt.  Numeric rendering abstracts from Python float
formatting (the prompt text is never inspected by the code). -/
def valRepr : Val → String
  | .num q => toString q
  | .str s => sq ++ s ++ sq
  | .vlist xs => "[" ++ joinWith ", " (valReprItems xs) ++ "]"

/-- `repr` of each list element. -/
def valReprItems : List Val → List String
  | [] => []
  | x :: xs => valRepr x :: valReprItems xs

end

/-- Python `str(dict)`: keys and string values in single quotes. -/
def mapRepr (m : List (String × Val)) : String :=
  "\x7b" ++ joinWith ", " (m.map (fun kv => sq ++ kv.1 ++ sq ++ ": " ++ valRepr kv.2)) ++ "\x7d"

/-- Python `str` of a value (an f-string renders a string without quotes). -/
def pyStr : Val → String
  | .str t => t
  | v => valRepr v

/-! ## Notification tool (notification_tools.py) -/

/-- External collaborators of `NotificationTool`: the two webhook
environment variables and the `requests.post` calls to them (an HTTP error
becomes `Except.error`). -/
structure NotifConfig where
  slackWebhook : String
  discordWebhook : String
  slackPost : String → Except String Unit
  discordPost : String → Except String Unit

/-- The status mapping returned by `NotificationTool.run`: success runs
carry the echoed message, failures carry an error string. -/
structure NotifResult where
  success : Bool
  channel : String
  message : Option String
  error : Option String
deriving Repr, DecidableEq

/-- `_send_console`: print the panel and report success. -/
def sendConsole (message : String) : NotifResult :=
  ⟨true, "console", some message, none⟩

/-- `_send_slack`: structured failure when the webhook is unconfigured or
the post raises, success otherwise. -/
def sendSlack (cfg : NotifConfig) (message : String) : NotifResult :=
  if cfg.slackWebhook.isEmpty then ⟨false, "slack", none, some "Webhook not configured"⟩
  else match cfg.slackPost message with
    | .ok _ => ⟨true, "slack", some message, none⟩
    | .error e => ⟨false, "slack", none, some e⟩

/-- `_send_discord`: same shape as the Slack channel. -/
def sendDiscord (cfg : NotifConfig) (message : String) : NotifResult :=
  if cfg.discordWebhook.isEmpty then ⟨false, "discord", none, some "Webhook not configured"⟩
  else match cfg.discordPost message with
    | .ok _ => ⟨true, "discord", some message, none⟩
    | .error e => ⟨false, "discord", none, some e⟩

/-- `NotificationTool.run`: dispatch on the channel name; any unknown
channel falls back to the console channel (notification_tools.py lines
43-45). -/
def NotificationTool.run (cfg : NotifConfig) (message : String) (channel : String) : NotifResult :=
  if channel = "console" then sendConsole message
  else if channel = "slack" then sendSlack cfg message
  else if channel = "discord" then sendDiscord cfg message
  else sendConsole message

/-! ## The fixed-stage workflow (graph_agent.py) -/

/-- A news article as consumed by the sentiment node: `title` is the
result of `article.get("title", "")`. -/
structure ArticleM where
  title : String

/-- The `AgentState` record threaded through the five nodes. -/
structure AgentStateM where
  symbol : String
  action : String
  price_data : List (String × Val)
  technical_indicators : List (String × Val)
  sentiment_data : List (String × Val)
  analysis_result : String
  decision : String
  messages : List String

/-- Node 1, `collect_data_node`: store the price tool result, or `{}` when
the tool raises. -/
def collectDataNode (priceTool : String → Except String (List (String × Val)))
    (s : AgentStateM) : AgentStateM :=
  match priceTool s.symbol with
  | .ok d => { s with price_data := d }
  | .error _ => { s with price_data := [] }

/-- Node 2, `technical_analysis_node`: derive trend/signal from the 24h
percentage change and a volume status from the 24h volume (missing fields
default to 0; `current_price` is read but never used).  A non-numeric
field makes the comparison raise, and the handler stores `{}`. -/
def technicalAnalysisNode (s : AgentStateM) : AgentStateM :=
  match getNumD s.price_data "price_change_percentage_24h" 0,
        getNumD s.price_data "total_volume" 0 with
  | some chg, some vol =>
    let ts : String × String :=
      if chg > 5 then ("Strong Uptrend", "BUY")
      else if chg > 0 then ("Uptrend", "HOLD")
      else if chg > -5 then ("Downtrend", "HOLD")
      else ("Strong Downtrend", "SELL")
    { s with technical_indicators :=
        [("trend", .str ts.1), ("signal", .str ts.2),
         ("volume_status", .str (if vol > 1000000000 then "High" else "Normal"))] }
  | _, _ => { s with technical_indicators := [] }

/-- Node 3, `sentiment_analysis_node`: article count, the constant
"Neutral" label and the first three headline titles; `{}` when the news
tool raises. -/
def sentimentAnalysisNode (newsTool : String → Except String (List ArticleM))
    (s : AgentStateM) : AgentStateM :=
  match newsTool s.symbol with
  | .ok articles =>
    { s with sentiment_data :=
        [("news_count", .num (articles.length : ℚ)),
         ("overall_sentiment", .str "Neutral"),
         ("news_headlines", .vlist ((articles.take 3).map (fun a => Val.str a.title)))] }
  | .error _ => { s with sentiment_data := [] }

/-- The natural-language context assembled for the decision LLM. -/
def buildContext (s : AgentStateM) : String :=
  "\nAnalyze the following cryptocurrency data and provide an investment recommendation:\n\n" ++
  "Symbol: " ++ s.symbol ++ "\n\n" ++
  "Price Data:\n" ++ mapRepr s.price_data ++ "\n\n" ++
  "Technical Indicators:\n" ++ mapRepr s.technical_indicators ++ "\n\n" ++
  "Sentiment Data:\n" ++ mapRepr s.sentiment_data ++ "\n\n" ++
  "Provide a clear recommendation (BUY/HOLD/SELL) with reasoning and confidence level (0-100%).\n" ++
  "Format your response as JSON:\n" ++
  "\x7b\n    \"recommendation\": \"BUY/HOLD/SELL\",\n    \"confidence\": 85,\n" ++
  "    \"reasoning\": \"Your detailed reasoning here\"\n\x7d\n"

/-- Node 4, `generate_decision_node`: store the LLM response text
verbatim, or the fixed error text when the call raises. -/
def generateDecisionNode (llm : String → Except String String)
    (s : AgentStateM) : AgentStateM :=
  match llm (buildContext s) with
  | .ok t => { s with decision := t }
  | .error _ => { s with decision := "Error generating decision" }

/-- The summary message composed by the notification node. -/
def notifyMessage (s : AgentStateM) : String :=
  "\nCrypto Analysis Complete: " ++ s.symbol ++ "\n\n" ++
  "Decision: " ++ s.decision ++ "\n\n" ++
  "Technical Signal: " ++ pyStr ((alookup s.technical_indicators "signal").getD (.str "N/A")) ++ "\n" ++
  "Trend: " ++ pyStr ((alookup s.technical_indicators "trend").getD (.str "N/A")) ++ "\n\n" ++
  "This is an automated analysis. Always do your own research before investing.\n"

/-- Node 5, `notification_node`: send the summary on the console channel;
the result is discarded and the state returned unchanged. -/
def notificationNode (cfg : NotifConfig) (s : AgentStateM) : AgentStateM :=
  let _ := NotificationTool.run cfg (notifyMessage s) "console"
  s

/-- The nested `data` snapshot of the final result. -/
structure ResultData where
  price_data : List (String × Val)
  technical_indicators : List (String × Val)
  sentiment_data : List (String × Val)

/-- The `AnalysisResult` dataclass.  `recommendation` holds whatever
`final_state["technical_indicators"].get("signal", "HOLD")` returns. -/
structure AnalysisResult where
  symbol : String
  recommendation : Val
  confidence : ℚ
  reasoning : String
  data : ResultData

/-- `CryptoAnalysisGraph.run`: initialize the state, run the five nodes in
their fixed order, and package the result with the hardcoded confidence
0.75. -/
def Graph.run (priceTool : String → Except String (List (String × Val)))
    (newsTool : String → Except String (List ArticleM))
    (llm : String → Except String String) (cfg : NotifConfig)
    (symbol : String) (action : String) : AnalysisResult :=
  let s0 : AgentStateM := ⟨symbol, action, [], [], [], "", "", []⟩
  let s5 := notificationNode cfg (generateDecisionNode llm
    (sentimentAnalysisNode newsTool (technicalAnalysisNode
      (collectDataNode priceTool s0))))
  { symbol := symbol,
    recommendation := (alookup s5.technical_indicators "signal").getD (.str "HOLD"),
    confidence := 0.75,
    reasoning := s5.decision,
    data := ⟨s5.price_data, s5.technical_indicators, s5.sentiment_data⟩ }

/-! ## Fixtures and spec-side definitions used by theorems below -/

/-- The return value the specification describes for a terminal response:
the whole trailing text after the FIRST occurrence of the marker, trimmed.
Compare with the code, which takes the field between the first and second
occurrences. -/
def trailingAfterFirst (s marker : String) : String :=
  pyStrip (joinWith marker ((pySplit s marker).drop 1))

/-- A workflow state whose price data carries the given 24h change and
volume. -/
def stChgVol (v vol : ℚ) : AgentStateM :=
  ⟨"BTC", "analyze",
   [("price_change_percentage_24h", .num v), ("total_volume", .num vol)],
   [], [], "", "", []⟩

/-- A response containing the terminal marker twice. -/
def respFinalTwice : String := "Final Answer: A\nFinal Answer: B"

/-- A concrete registered tool. -/
def toolSearchSpec : ToolSpec := ⟨"Search the web", fun _ => .ok "tool ran"⟩

/-- A registry holding exactly the tool above under the name "search". -/
def toolsSearch : Tools := [("search", toolSearchSpec)]

/-- A response whose Action Input decodes to the empty JSON object. -/
def respEmptyInput : String := "Action: search\nAction Input: \x7b\x7d"

/-- A response with a thought, a registered action and a nonempty JSON
input. -/
def respGoodInput : String :=
  "Thought: check\nAction: search\nAction Input: \x7b\"query\": \"btc\"\x7d"

/-- The indicators the technical node derives from empty price data
(change and volume default to 0). -/
def downtrendIndicators : List (String × Val) :=
  [("trend", .str "Downtrend"), ("signal", .str "HOLD"), ("volume_status", .str "Normal")]

/-- A price tool that always raises. -/
def priceFailTool : String → Except String (List (String × Val)) := fun _ => .error "API down"

/-- A news tool returning one article. -/
def newsOkTool : String → Except String (List ArticleM) := fun _ => .ok [⟨"BTC rallies"⟩]

/-- A decision LLM returning fixed text. -/
def llmOkTool : String → Except String String := fun _ => .ok "BUY looks fine"

/-- A notification configuration with no webhooks set. -/
def notifCfg0 : NotifConfig := ⟨"", "", fun _ => .ok (), fun _ => .ok ()⟩

/-! ## Helper lemmas -/

/-- When no response ever contains the terminal marker, every call of the
loop body returns the fixed exhaustion message after spending all its
fuel, one LLM invocation per iteration. -/
theorem runFrom_no_marker (tools : Tools) (llm : Nat → String → String) (q : String)
    (h : ∀ i p, hasSubstr (llm i p) "Final Answer:" = false) :
    ∀ fuel calls history,
      (runFrom tools llm q fuel calls history).answer = "Max iterations reached." ∧
      (runFrom tools llm q fuel calls history).llmCalls = calls + fuel := by
  intro fuel
  induction fuel with
  | zero => intro calls history; exact ⟨rfl, rfl⟩
  | succ k ih =>
    intro calls history
    unfold runFrom
    simp only [h, if_false, Bool.false_eq_true]
    have := ih (calls + 1) (history ++ [makeStep tools (llm calls (buildPrompt tools q history))])
    exact ⟨this.1, by rw [this.2]; omega⟩

/-- The loop extends its history by at most one step per remaining
iteration, and only ever by appending at the end. -/
theorem runFrom_history_growth (tools : Tools) (llm : Nat → String → String) (q : String) :
    ∀ fuel calls history,
      ((runFrom tools llm q fuel calls history).history.length ≤ history.length + fuel) ∧
      ∃ t, (runFrom tools llm q fuel calls history).history = history ++ t := by
  intro fuel
  induction fuel with
  | zero => intro calls history; exact ⟨Nat.le_add_right _ _, [], by simp [runFrom]⟩
  | succ k ih =>
    intro calls history
    unfold runFrom
    cases hmark : hasSubstr (llm calls (buildPrompt tools q history)) "Final Answer:" with
    | true =>
      simp only [hmark, if_true]
      exact ⟨by omega, [], by simp⟩
    | false =>
      simp only [hmark, Bool.false_eq_true, if_false]
      obtain ⟨hlen, t, ht⟩ := ih (calls + 1)
        (history ++ [makeStep tools (llm calls (buildPrompt tools q history))])
      have hl2 : (history ++ [makeStep tools (llm calls (buildPrompt tools q history))]).length =
          history.length + 1 := by simp
      refine ⟨by omega, makeStep tools (llm calls (buildPrompt tools q history)) :: t, ?_⟩
      rw [ht]
      simp

/-- The collect stage writes only `price_data`. -/
theorem collectDataNode_frame (pt : String → Except String (List (String × Val))) (s : AgentStateM) :
    (collectDataNode pt s).symbol = s.symbol ∧
    (collectDataNode pt s).action = s.action ∧
    (collectDataNode pt s).technical_indicators = s.technical_indicators ∧
    (collectDataNode pt s).sentiment_data = s.sentiment_data ∧
    (collectDataNode pt s).analysis_result = s.analysis_result ∧
    (collectDataNode pt s).decision = s.decision ∧
    (collectDataNode pt s).messages = s.messages := by
  unfold collectDataNode
  cases pt s.symbol <;> exact ⟨rfl, rfl, rfl, rfl, rfl, rfl, rfl⟩

/-- The technical-analysis stage writes only `technical_indicators`. -/
theorem technicalAnalysisNode_frame (s : AgentStateM) :
    (technicalAnalysisNode s).symbol = s.symbol ∧
    (technicalAnalysisNode s).action = s.action ∧
    (technicalAnalysisNode s).price_data = s.price_data ∧
    (technicalAnalysisNode s).sentiment_data = s.sentiment_data ∧
    (technicalAnalysisNode s).analysis_result = s.analysis_result ∧
    (technicalAnalysisNode s).decision = s.decision ∧
    (technicalAnalysisNode s).messages = s.messages := by
  unfold technicalAnalysisNode
  cases getNumD s.price_data "price_change_percentage_24h" 0 <;>
    cases getNumD s.price_data "total_volume" 0 <;>
    exact ⟨rfl, rfl, rfl, rfl, rfl, rfl, rfl⟩

/-- The sentiment stage writes only `sentiment_data`. -/
theorem sentimentAnalysisNode_frame (nt : String → Except String (List ArticleM)) (s : AgentStateM) :
    (sentimentAnalysisNode nt s).symbol = s.symbol ∧
    (sentimentAnalysisNode nt s).action = s.action ∧
    (sentimentAnalysisNode nt s).price_data = s.price_data ∧
    (sentimentAnalysisNode nt s).technical_indicators = s.technical_indicators ∧
    (sentimentAnalysisNode nt s).analysis_result = s.analysis_result ∧
    (sentimentAnalysisNode nt s).decision = s.decision ∧
    (sentimentAnalysisNode nt s).messages = s.messages := by
  unfold sentimentAnalysisNode
  cases nt s.symbol <;> exact ⟨rfl, rfl, rfl, rfl, rfl, rfl, rfl⟩

/-- The decision stage writes only `decision`. -/
theorem generateDecisionNode_frame (llm : String → Except String String) (s : AgentStateM) :
    (generateDecisionNode llm s).symbol = s.symbol ∧
    (generateDecisionNode llm s).action = s.action ∧
    (generateDecisionNode llm s).price_data = s.price_data ∧
    (generateDecisionNode llm s).technical_indicators = s.technical_indicators ∧
    (generateDecisionNode llm s).sentiment_data = s.sentiment_data ∧
    (generateDecisionNode llm s).analysis_result = s.analysis_result ∧
    (generateDecisionNode llm s).messages = s.messages := by
  unfold generateDecisionNode
  cases llm (buildContext s) <;> exact ⟨rfl, rfl, rfl, rfl, rfl, rfl, rfl⟩

/-- The notification stage writes no state field at all. -/
theorem notificationNode_id (cfg : NotifConfig) (s : AgentStateM) :
    notificationNode cfg s = s := rfl

/-! ## Claims -/

/-- C1: for any state whose price data carries a numeric 24h percentage
change v (current price arbitrary, 24h volume any number), the technical
signal deriver yields signal BUY and trend "Strong Uptrend" when v > 5,
signal HOLD and trend "Uptrend" when 0 < v ≤ 5, signal HOLD and trend
"Downtrend" when −5 < v ≤ 0, and signal SELL and trend "Strong Downtrend"
when v ≤ −5. -/
theorem technical_signal_cases (s : AgentStateM) (v : ℚ)
    (hchg : getNumD s.price_data "price_change_percentage_24h" 0 = some v)
    (hvol : getNumD s.price_data "total_volume" 0 ≠ none) :
    (v > 5 → alookup (technicalAnalysisNode s).technical_indicators "signal" = some (.str "BUY") ∧
      alookup (technicalAnalysisNode s).technical_indicators "trend" = some (.str "Strong Uptrend")) ∧
    (0 < v ∧ v ≤ 5 → alookup (technicalAnalysisNode s).technical_indicators "signal" = some (.str "HOLD") ∧
      alookup (technicalAnalysisNode s).technical_indicators "trend" = some (.str "Uptrend")) ∧
    (-5 < v ∧ v ≤ 0 → alookup (technicalAnalysisNode s).technical_indicators "signal" = some (.str "HOLD") ∧
      alookup (technicalAnalysisNode s).technical_indicators "trend" = some (.str "Downtrend")) ∧
    (v ≤ -5 → alookup (technicalAnalysisNode s).technical_indicators "signal" = some (.str "SELL") ∧
      alookup (technicalAnalysisNode s).technical_indicators "trend" = some (.str "Strong Downtrend")) := by
  obtain ⟨vol, hv⟩ := Option.ne_none_iff_exists'.mp hvol
  unfold technicalAnalysisNode
  rw [hchg, hv]
  refine ⟨fun h => ?_, fun h => ?_, fun h => ?_, fun h => ?_⟩ <;>
    simp only [] <;> split_ifs with h1 <;>
    first
      | (constructor <;> rfl)
      | (exfalso; rcases h with ⟨ha, hb⟩ <;> linarith)
      | (exfalso; linarith)

/-- C1 witness: the four signal/trend cases evaluated at the concrete
changes 6, 3, −3 and −6. -/
theorem technical_signal_cases_witness :
    (alookup (technicalAnalysisNode (stChgVol 6 0)).technical_indicators "signal" = some (.str "BUY") ∧
      alookup (technicalAnalysisNode (stChgVol 6 0)).technical_indicators "trend" = some (.str "Strong Uptrend")) ∧
    (alookup (technicalAnalysisNode (stChgVol 3 0)).technical_indicators "signal" = some (.str "HOLD") ∧
      alookup (technicalAnalysisNode (stChgVol 3 0)).technical_indicators "trend" = some (.str "Uptrend")) ∧
    (alookup (technicalAnalysisNode (stChgVol (-3) 0)).technical_indicators "signal" = some (.str "HOLD") ∧
      alookup (technicalAnalysisNode (stChgVol (-3) 0)).technical_indicators "trend" = some (.str "Downtrend")) ∧
    (alookup (technicalAnalysisNode (stChgVol (-6) 0)).technical_indicators "signal" = some (.str "SELL") ∧
      alookup (technicalAnalysisNode (stChgVol (-6) 0)).technical_indicators "trend" = some (.str "Strong Downtrend")) :=
  ⟨(technical_signal_cases (stChgVol 6 0) 6 rfl (by decide)).1 (by norm_num),
   (technical_signal_cases (stChgVol 3 0) 3 rfl (by decide)).2.1 (by norm_num),
   (technical_signal_cases (stChgVol (-3) 0) (-3) rfl (by decide)).2.2.1 (by norm_num),
   (technical_signal_cases (stChgVol (-6) 0) (-6) rfl (by decide)).2.2.2 (by norm_num)⟩

/-- C2 counterexample: on a response containing the marker twice, `run`
returns the field between the first and second occurrences ("A"), not the
trailing text after the first occurrence ("A\nFinal Answer: B") that the
claim describes. -/
theorem final_answer_split_counterexample :
    hasSubstr respFinalTwice "Final Answer:" = true ∧
    (ReAct.run [] 1 (fun _ _ => respFinalTwice) "q").answer = "A" ∧
    trailingAfterFirst respFinalTwice "Final Answer:" = "A\nFinal Answer: B" ∧
    ("A" : String) ≠ "A\nFinal Answer: B" :=
  ⟨rfl, rfl, rfl, by decide⟩

/-- C2 (amended): for every first LLM response in which the marker "Final
Answer:" occurs exactly once, `run` immediately returns the trailing text
after that occurrence, trimmed, with an empty history and a single LLM
invocation (when it occurs more than once, the code returns only the text
up to the second occurrence). -/
theorem final_answer_terminal (tools : Tools) (m : Nat) (llm : Nat → String → String)
    (q : String) (hm : 1 ≤ m)
    (hmark : hasSubstr (llm 0 (buildPrompt tools q [])) "Final Answer:" = true)
    (honce : (pySplit (llm 0 (buildPrompt tools q [])) "Final Answer:").length = 2) :
    (ReAct.run tools m llm q).answer =
      trailingAfterFirst (llm 0 (buildPrompt tools q [])) "Final Answer:" ∧
    (ReAct.run tools m llm q).history = [] ∧
    (ReAct.run tools m llm q).llmCalls = 1 := by
  obtain ⟨k, rfl⟩ : ∃ k, m = k + 1 := ⟨m - 1, by omega⟩
  obtain ⟨a, b, hab⟩ := List.length_eq_two.mp honce
  unfold ReAct.run runFrom
  simp only [hmark, if_true]
  refine ⟨?_, trivial, trivial⟩
  rw [trailingAfterFirst, hab]
  rfl

/-- C2 witness: a first response "Final Answer: 42" makes `run` return
exactly "42" with empty history after one LLM call. -/
theorem final_answer_terminal_witness :
    (ReAct.run [] 1 (fun _ _ => "Final Answer: 42") "demo").answer = "42" ∧
    (ReAct.run [] 1 (fun _ _ => "Final Answer: 42") "demo").history = [] ∧
    (ReAct.run [] 1 (fun _ _ => "Final Answer: 42") "demo").llmCalls = 1 := by
  have h := final_answer_terminal [] 1 (fun _ _ => "Final Answer: 42") "demo"
    (by decide) (by decide) (by decide)
  exact ⟨h.1.trans rfl, h.2.1, h.2.2⟩

/-- C3: when no LLM response ever contains "Final Answer:", `run`
terminates after exactly `max_iterations` LLM invocations and returns the
fixed exhaustion message. -/
theorem max_iterations_exhaustion (tools : Tools) (m : Nat) (llm : Nat → String → String)
    (q : String) (h : ∀ i p, hasSubstr (llm i p) "Final Answer:" = false) :
    (ReAct.run tools m llm q).answer = "Max iterations reached." ∧
    (ReAct.run tools m llm q).llmCalls = m := by
  have := runFrom_no_marker tools llm q h m 0 []
  exact ⟨this.1, by rw [ReAct.run] at *; omega⟩

/-- C3 witness: a scripted LLM whose responses always carry an unparsable
Action Input and never the marker exhausts a budget of 2 in exactly 2
calls. -/
theorem max_iterations_exhaustion_witness :
    (ReAct.run [] 2 (fun _ _ => "Thought: thinking\nAction Input: not json") "demo").answer =
      "Max iterations reached." ∧
    (ReAct.run [] 2 (fun _ _ => "Thought: thinking\nAction Input: not json") "demo").llmCalls = 2 :=
  max_iterations_exhaustion [] 2 (fun _ _ => "Thought: thinking\nAction Input: not json") "demo"
    (fun _ _ => rfl)

/-- C4 counterexample: from the response "Action: search / Action Input:
{}" the parser extracts both the registered action name and the decoded
empty-object input, yet the loop records no observation — the Python
truthiness guard `if action and action_input:` skips dispatch because `{}`
is falsy. -/
theorem dispatch_truthiness_counterexample :
    parseAction respEmptyInput = (some "search", some (.obj [])) ∧
    (toolsSearch.find? (fun p => p.1 = "search")) = some ("search", toolSearchSpec) ∧
    (ReAct.run toolsSearch 1 (fun _ _ => respEmptyInput) "q").history =
      [⟨"", some "search", some (.obj []), none⟩] :=
  ⟨rfl, rfl, rfl⟩

/-- C4 (amended): when the parser extracts an action name and an action
input that are both truthy (nonempty name, non-falsy input), the loop
dispatches to the tool registered under exactly that name and records the
serialized tool result as that step's observation; an extracted-but-falsy
input (such as the empty JSON object) yields no dispatch. -/
theorem dispatch_on_truthy (tools : Tools) (llm : Nat → String → String) (q : String)
    (a : String) (inp : Json) (f : ToolSpec)
    (hmark : hasSubstr (llm 0 (buildPrompt tools q [])) "Final Answer:" = false)
    (hparse : parseAction (llm 0 (buildPrompt tools q [])) = (some a, some inp))
    (ha : a ≠ "") (hinp : inp.truthy = true)
    (hfind : tools.find? (fun p => p.1 = a) = some (a, f)) :
    (ReAct.run tools 1 llm q).history = [makeStep tools (llm 0 (buildPrompt tools q []))] ∧
    (makeStep tools (llm 0 (buildPrompt tools q []))).observation = some (executeTool tools a inp) ∧
    executeTool tools a inp =
      (match f.call inp with
       | .ok r => r
       | .error e => "Error executing " ++ a ++ ": " ++ e) := by
  have ha2 : a.isEmpty = false :=
    Bool.eq_false_iff.mpr (fun hh => ha ((String.isEmpty_iff a).mp hh))
  refine ⟨?_, ?_, ?_⟩
  · unfold ReAct.run runFrom
    simp only [hmark, Bool.false_eq_true, if_false]
    unfold runFrom
    simp
  · unfold makeStep
    simp only [hparse, ha2, hinp]
    simp
  · unfold executeTool
    rw [hfind]

/-- C4 witness: a response naming the registered "search" tool with the
nonempty input object runs the tool and records its serialized result. -/
theorem dispatch_on_truthy_witness :
    (ReAct.run toolsSearch 1 (fun _ _ => respGoodInput) "q").history =
      [makeStep toolsSearch respGoodInput] ∧
    (makeStep toolsSearch respGoodInput).observation =
      some (executeTool toolsSearch "search" (.obj [("query", .str "btc")])) ∧
    executeTool toolsSearch "search" (.obj [("query", .str "btc")]) = "tool ran" := by
  have h := dispatch_on_truthy toolsSearch (fun _ _ => respGoodInput) "q" "search"
    (.obj [("query", .str "btc")]) toolSearchSpec rfl rfl (by decide) rfl rfl
  exact ⟨h.1, h.2.1, h.2.2.trans rfl⟩

/-- C5: `run` starts from an empty history, every iteration extends the
history by appending at most one step at the end, and the final history
never exceeds the `max_iterations` budget. -/
theorem history_bounded (tools : Tools) (m : Nat) (llm : Nat → String → String) (q : String) :
    ReAct.run tools m llm q = runFrom tools llm q m 0 [] ∧
    (∀ fuel calls hist,
      (runFrom tools llm q fuel calls hist).history.length ≤ hist.length + fuel ∧
      ∃ t, (runFrom tools llm q fuel calls hist).history = hist ++ t) ∧
    (ReAct.run tools m llm q).history.length ≤ m := by
  refine ⟨rfl, fun fuel calls hist => runFrom_history_growth tools llm q fuel calls hist, ?_⟩
  simpa [ReAct.run] using (runFrom_history_growth tools llm q m 0 []).1

/-- C6: for any state with a numeric 24h volume v (and a numeric change so
the node does not degrade), the derived `volume_status` is "High" exactly
when v > 1,000,000,000 and "Normal" when v ≤ 1,000,000,000. -/
theorem volume_status_cases (s : AgentStateM) (v : ℚ)
    (hvol : getNumD s.price_data "total_volume" 0 = some v)
    (hchg : getNumD s.price_data "price_change_percentage_24h" 0 ≠ none) :
    (v > 1000000000 → alookup (technicalAnalysisNode s).technical_indicators "volume_status" = some (.str "High")) ∧
    (v ≤ 1000000000 → alookup (technicalAnalysisNode s).technical_indicators "volume_status" = some (.str "Normal")) := by
  obtain ⟨chg, hc⟩ := Option.ne_none_iff_exists'.mp hchg
  unfold technicalAnalysisNode
  rw [hc, hvol]
  refine ⟨fun h => ?_, fun h => ?_⟩ <;> simp only [] <;> split_ifs <;>
    first
      | rfl
      | (exfalso; linarith)

/-- C6 witness: at exactly v = 1e9 the volume status resolves to
"Normal". -/
theorem volume_status_cases_witness :
    alookup (technicalAnalysisNode (stChgVol 0 1000000000)).technical_indicators "volume_status" =
      some (.str "Normal") :=
  (volume_status_cases (stChgVol 0 1000000000) 1000000000 rfl (by decide)).2 (by norm_num)

/-- C7: when the price tool raises, the workflow still runs to completion
and returns a result whose `data.price_data` is the empty mapping and
whose recommendation is the defaulted HOLD label (the technical stage
derives Downtrend/HOLD/Normal from the empty price data). -/
theorem price_failure_degrades (pt : String → Except String (List (String × Val)))
    (nt : String → Except String (List ArticleM)) (llm : String → Except String String)
    (cfg : NotifConfig) (symbol act err : String)
    (hfail : pt symbol = .error err) :
    (Graph.run pt nt llm cfg symbol act).data.price_data = [] ∧
    (Graph.run pt nt llm cfg symbol act).recommendation = .str "HOLD" ∧
    (Graph.run pt nt llm cfg symbol act).data.technical_indicators = downtrendIndicators := by
  have h1 : (collectDataNode pt ⟨symbol, act, [], [], [], "", "", []⟩).price_data = [] := by
    unfold collectDataNode
    simp only [hfail]
  have h2 : (technicalAnalysisNode (collectDataNode pt ⟨symbol, act, [], [], [], "", "", []⟩)).technical_indicators =
      downtrendIndicators := by
    unfold technicalAnalysisNode
    rw [h1]
    norm_num [getNumD, alookup, downtrendIndicators]
  have h2b := technicalAnalysisNode_frame (collectDataNode pt ⟨symbol, act, [], [], [], "", "", []⟩)
  have h3 := sentimentAnalysisNode_frame nt
    (technicalAnalysisNode (collectDataNode pt ⟨symbol, act, [], [], [], "", "", []⟩))
  have h4 := generateDecisionNode_frame llm
    (sentimentAnalysisNode nt (technicalAnalysisNode (collectDataNode pt ⟨symbol, act, [], [], [], "", "", []⟩)))
  refine ⟨?_, ?_, ?_⟩
  · simp only [Graph.run, notificationNode_id]
    rw [h4.2.2.1, h3.2.2.1, h2b.2.2.1, h1]
  · simp only [Graph.run, notificationNode_id]
    rw [h4.2.2.2.1, h3.2.2.2.1, h2]
    rfl
  · simp only [Graph.run, notificationNode_id]
    rw [h4.2.2.2.1, h3.2.2.2.1, h2]

/-- C7 witness: for the symbol BTC with an always-raising price tool, the
result still recommends HOLD and carries empty price data. -/
theorem price_failure_degrades_witness :
    (Graph.run priceFailTool newsOkTool llmOkTool notifCfg0 "BTC" "analyze").data.price_data = [] ∧
    (Graph.run priceFailTool newsOkTool llmOkTool notifCfg0 "BTC" "analyze").recommendation = .str "HOLD" ∧
    (Graph.run priceFailTool newsOkTool llmOkTool notifCfg0 "BTC" "analyze").data.technical_indicators =
      downtrendIndicators :=
  price_failure_degrades priceFailTool newsOkTool llmOkTool notifCfg0 "BTC" "analyze" "API down" rfl

/-- C8: each workflow stage writes only its own designated field — collect
only `price_data`, technical analysis only `technical_indicators`,
sentiment only `sentiment_data`, decision only `decision` — and notify
writes no field at all. -/
theorem stage_frame_effects (pt : String → Except String (List (String × Val)))
    (nt : String → Except String (List ArticleM)) (llm : String → Except String String)
    (cfg : NotifConfig) (s : AgentStateM) :
    ((collectDataNode pt s).symbol = s.symbol ∧
     (collectDataNode pt s).action = s.action ∧
     (collectDataNode pt s).technical_indicators = s.technical_indicators ∧
     (collectDataNode pt s).sentiment_data = s.sentiment_data ∧
     (collectDataNode pt s).analysis_result = s.analysis_result ∧
     (collectDataNode pt s).decision = s.decision ∧
     (collectDataNode pt s).messages = s.messages) ∧
    ((technicalAnalysisNode s).symbol = s.symbol ∧
     (technicalAnalysisNode s).action = s.action ∧
     (technicalAnalysisNode s).price_data = s.price_data ∧
     (technicalAnalysisNode s).sentiment_data = s.sentiment_data ∧
     (technicalAnalysisNode s).analysis_result = s.analysis_result ∧
     (technicalAnalysisNode s).decision = s.decision ∧
     (technicalAnalysisNode s).messages = s.messages) ∧
    ((sentimentAnalysisNode nt s).symbol = s.symbol ∧
     (sentimentAnalysisNode nt s).action = s.action ∧
     (sentimentAnalysisNode nt s).price_data = s.price_data ∧
     (sentimentAnalysisNode nt s).technical_indicators = s.technical_indicators ∧
     (sentimentAnalysisNode nt s).analysis_result = s.analysis_result ∧
     (sentimentAnalysisNode nt s).decision = s.decision ∧
     (sentimentAnalysisNode nt s).messages = s.messages) ∧
    ((generateDecisionNode llm s).symbol = s.symbol ∧
     (generateDecisionNode llm s).action = s.action ∧
     (generateDecisionNode llm s).price_data = s.price_data ∧
     (generateDecisionNode llm s).technical_indicators = s.technical_indicators ∧
     (generateDecisionNode llm s).sentiment_data = s.sentiment_data ∧
     (generateDecisionNode llm s).analysis_result = s.analysis_result ∧
     (generateDecisionNode llm s).messages = s.messages) ∧
    notificationNode cfg s = s :=
  ⟨collectDataNode_frame pt s, technicalAnalysisNode_frame s,
   sentimentAnalysisNode_frame nt s, generateDecisionNode_frame llm s,
   notificationNode_id cfg s⟩

/-- C9: two workflow runs differing only in the decision-stage LLM agree
on recommendation, symbol and the whole data snapshot, and both carry the
hardcoded confidence 0.75 — the LLM text can only influence the reasoning
field. -/
theorem decision_noninterference (pt : String → Except String (List (String × Val)))
    (nt : String → Except String (List ArticleM)) (cfg : NotifConfig) (symbol act : String)
    (llm1 llm2 : String → Except String String) :
    (Graph.run pt nt llm1 cfg symbol act).recommendation =
      (Graph.run pt nt llm2 cfg symbol act).recommendation ∧
    (Graph.run pt nt llm1 cfg symbol act).confidence = 0.75 ∧
    (Graph.run pt nt llm2 cfg symbol act).confidence = 0.75 ∧
    (Graph.run pt nt llm1 cfg symbol act).symbol = (Graph.run pt nt llm2 cfg symbol act).symbol ∧
    (Graph.run pt nt llm1 cfg symbol act).data = (Graph.run pt nt llm2 cfg symbol act).data := by
  have a1 := generateDecisionNode_frame llm1
    (sentimentAnalysisNode nt (technicalAnalysisNode (collectDataNode pt ⟨symbol, act, [], [], [], "", "", []⟩)))
  have a2 := generateDecisionNode_frame llm2
    (sentimentAnalysisNode nt (technicalAnalysisNode (collectDataNode pt ⟨symbol, act, [], [], [], "", "", []⟩)))
  refine ⟨?_, rfl, rfl, rfl, ?_⟩
  · simp only [Graph.run, notificationNode_id]
    rw [a1.2.2.2.1, a2.2.2.2.1]
  · simp only [Graph.run, notificationNode_id]
    rw [a1.2.2.1, a2.2.2.1, a1.2.2.2.1, a2.2.2.2.1, a1.2.2.2.2.1, a2.2.2.2.2.1]

/-- C10: for any message and any channel name other than console, slack
and discord, the notification tool neither raises nor reports failure: it
falls back to the console channel and returns success with the echoed
message. -/
theorem unknown_channel_console (cfg : NotifConfig) (message channel : String)
    (h1 : channel ≠ "console") (h2 : channel ≠ "slack") (h3 : channel ≠ "discord") :
    NotificationTool.run cfg message channel = ⟨true, "console", some message, none⟩ := by
  unfold NotificationTool.run
  rw [if_neg h1, if_neg h2, if_neg h3]
  rfl

/-- C10 witness: the unconfigured channel "email" falls back to a
successful console delivery echoing the message. -/
theorem unknown_channel_console_witness :
    NotificationTool.run notifCfg0 "Test notification" "email" =
      ⟨true, "console", some "Test notification", none⟩ :=
  unknown_channel_console notifCfg0 "Test notification" "email"
    (by decide) (by decide) (by decide)

end Spoon
